import Mathlib

/-!
Verification development for the Solar-system-emulator repository.

The definitions below are a shallow embedding of the orbital update logic
(PlanetsUpdater.js), the planet position computation (Planets.js), the camera
state machine (CameraController.js) and the speed control (SpeedControl.js).
JavaScript floating point numbers are modelled as real numbers; JavaScript
objects used as string-keyed maps are modelled as association lists together
with a lookup function; the React state setter discipline of PlanetsUpdater
is modelled by returning the resulting map together with the hasChanges flag,
where a false flag means the previous map object is returned unchanged.
-/

/-- Three dimensional vector over the reals, standing in for THREE.Vector3. -/
structure Vec3 where
  x : ℝ
  y : ℝ
  z : ℝ

/-- Componentwise addition, as THREE.Vector3.add. -/
def Vec3.add (a b : Vec3) : Vec3 := ⟨a.x + b.x, a.y + b.y, a.z + b.z⟩

/-- Componentwise subtraction, as THREE.Vector3.sub. -/
def Vec3.sub (a b : Vec3) : Vec3 := ⟨a.x - b.x, a.y - b.y, a.z - b.z⟩

/-- Scalar multiplication, as THREE.Vector3.multiplyScalar. -/
def Vec3.smul (a : Vec3) (t : ℝ) : Vec3 := ⟨a.x * t, a.y * t, a.z * t⟩

/-- Linear interpolation, as THREE.Vector3.lerp: each component moves by the
fraction t of its distance to the corresponding component of b. -/
def Vec3.lerp (a b : Vec3) (t : ℝ) : Vec3 :=
  ⟨a.x + (b.x - a.x) * t, a.y + (b.y - a.y) * t, a.z + (b.z - a.z) * t⟩

/-- Euclidean length, as THREE.Vector3.length. -/
noncomputable def Vec3.length (a : Vec3) : ℝ :=
  Real.sqrt (a.x ^ 2 + a.y ^ 2 + a.z ^ 2)

/-- Euclidean distance, as THREE.Vector3.distanceTo. -/
noncomputable def Vec3.distanceTo (a b : Vec3) : ℝ := (a.sub b).length

/-- Normalisation, as THREE.Vector3.normalize, which divides by the length or,
when the length is zero, by one. -/
noncomputable def Vec3.normalize (a : Vec3) : Vec3 :=
  a.smul (1 / (if a.length = 0 then 1 else a.length))

/-- The zero vector. -/
def Vec3.origin : Vec3 := ⟨0, 0, 0⟩

/-- Lookup in a string-keyed association list, modelling property access on a
JavaScript object used as a map; none models undefined. -/
def lookupKey {α : Type} : List (String × α) → String → Option α
  | [], _ => none
  | (k, v) :: rest, key => if k = key then some v else lookupKey rest key

/-- Assignment on a string-keyed association list, modelling property
assignment on a JavaScript object: the first binding of the key is replaced,
and a missing key is appended. -/
def setKey {α : Type} : List (String × α) → String → α → List (String × α)
  | [], key, v => [(key, v)]
  | (k, w) :: rest, key, v =>
      if k = key then (key, v) :: rest else (k, w) :: setKey rest key v

/-- Per-planet catalog data as read by PlanetsUpdater.js: the name, the isSun
flag, the x coordinate of the catalog position (the code reads
planet.position[0] or planet.position.x as the distance from the Sun) and the
catalog orbitSpeed. -/
structure PlanetData where
  name : String
  isSun : Bool
  positionX : ℝ
  orbitSpeed : ℝ

/-- Orbital progress map: body name to accumulated angular progress. -/
abbrev ProgMap := List (String × ℝ)

/-- The ORBIT_SPEED_FACTOR constant of PlanetsUpdater.js. -/
def ORBIT_SPEED_FACTOR : ℝ := 50

/-- Kepler factor of PlanetsUpdater.js: Math.sqrt(1 / Math.pow(d, 3)). -/
noncomputable def keplerFactor (distanceFromSun : ℝ) : ℝ :=
  Real.sqrt (1 / distanceFromSun ^ 3)

/-- The orbitSpeedRadians expression of PlanetsUpdater.js:
((orbitSpeed * ORBIT_SPEED_FACTOR * keplerFactor) / 360) * (2 * PI) *
speedFactor. -/
noncomputable def orbitSpeedRadians (orbitSpeed distanceFromSun speedFactor : ℝ) : ℝ :=
  orbitSpeed * ORBIT_SPEED_FACTOR * keplerFactor distanceFromSun / 360 *
    (2 * Real.pi) * speedFactor

/-- Per-tick angular progress increment of a planet: orbitSpeedRadians times
deltaTime, exactly as added to the accumulator in PlanetsUpdater.js. -/
noncomputable def progressIncrement (p : PlanetData) (speedFactor deltaTime : ℝ) : ℝ :=
  orbitSpeedRadians p.orbitSpeed p.positionX speedFactor * deltaTime

/-- The value PlanetsUpdater.js wants to store for a planet this tick: zero
for the Sun, and the previous progress (or zero when absent) plus the
increment for every other body. -/
noncomputable def stepValue (speedFactor deltaTime : ℝ) (prev : ProgMap)
    (p : PlanetData) : ℝ :=
  if p.isSun then 0
  else (lookupKey prev p.name).getD 0 + progressIncrement p speedFactor deltaTime

open Classical in
/-- One iteration of the planets.forEach loop of PlanetsUpdater.js acting on
the pair of the map under construction and the hasChanges flag: the Sun entry
is forced to zero, other entries are set to the previous value plus the
increment, and in either case the write and the flag update happen only when
the stored value differs. -/
noncomputable def stepPlanet (speedFactor deltaTime : ℝ) (prev : ProgMap)
    (acc : ProgMap × Bool) (p : PlanetData) : ProgMap × Bool :=
  if p.isSun then
    if lookupKey acc.1 p.name ≠ some 0 then (setKey acc.1 p.name 0, true) else acc
  else
    let newValue := (lookupKey prev p.name).getD 0 +
      progressIncrement p speedFactor deltaTime
    if lookupKey acc.1 p.name ≠ some newValue then
      (setKey acc.1 p.name newValue, true)
    else acc

/-- The whole per-tick updater body of PlanetsUpdater.js: fold the loop over
the catalog starting from a copy of the previous map with hasChanges false,
then return the new map when hasChanges is set and the previous map otherwise,
paired with the hasChanges flag. -/
noncomputable def advanceProgress (planets : List PlanetData)
    (speedFactor deltaTime : ℝ) (prev : ProgMap) : ProgMap × Bool :=
  let r := planets.foldl (stepPlanet speedFactor deltaTime prev) (prev, false)
  (if r.2 then r.1 else prev, r.2)

/-- Planet world position as computed in Planets.js:
x = cos(orbitProgress) * orbitRadius, y = 0, z = sin(orbitProgress) *
orbitRadius, with orbitRadius = position.x. -/
noncomputable def planetPosition (orbitRadius progress : ℝ) : Vec3 :=
  ⟨Real.cos progress * orbitRadius, 0, Real.sin progress * orbitRadius⟩

/-- Positions of all non-star bodies derived from a progress map, as the
Planet components publish them into the position registry. -/
noncomputable def positionsOf (planets : List PlanetData) (m : ProgMap) :
    List (String × Vec3) :=
  (planets.filter (fun p => !p.isSun)).map
    (fun p => (p.name, planetPosition p.positionX ((lookupKey m p.name).getD 0)))

/-- Replaying a sequence of (deltaTime, speedFactor) ticks through the
orbital updater, keeping the resulting progress map of each tick. -/
noncomputable def runAdvance (planets : List PlanetData)
    (steps : List (ℝ × ℝ)) (m : ProgMap) : ProgMap :=
  steps.foldl (fun acc s => (advanceProgress planets s.2 s.1 acc).1) m

/-- Camera state enumeration of CameraController.js and types.ts. -/
inductive CameraState where
  | INTRO_ANIMATION
  | FREE
  | ZOOMING_IN
  | DETAIL_VIEW
  | MOVING_TO_HOME
deriving DecidableEq, Repr

/-- The selection value read by CameraController.js: a planet, the Sun, or a
moon; storedPosition models the optional position field carried by a moon
selection object. -/
structure SelectedBody where
  name : String
  radius : ℝ
  isSun : Bool
  isMoon : Bool
  storedPosition : Option Vec3

/-- The body position registry of PlanetPositionsContext: body name to world
position. -/
abbrev Registry := List (String × Vec3)

/-- CAMERA.LERP_FACTOR of CameraController.js. -/
def CAMERA_LERP_FACTOR : ℝ := 0.015

/-- CAMERA.POSITION_EPSILON of CameraController.js. -/
def CAMERA_POSITION_EPSILON : ℝ := 0.1

/-- CAMERA.FAST_LERP_FACTOR of CameraController.js. -/
def CAMERA_FAST_LERP_FACTOR : ℝ := 0.04

/-- CAMERA.HOME_POSITION of CameraController.js. -/
def CAMERA_HOME_POSITION : Vec3 := ⟨11, 1, 1⟩

/-- DISTANCE_FACTORS.SUN.OFFSET of CameraController.js. -/
def SUN_FACTORS_OFFSET : Vec3 := ⟨8, 4, 6⟩

/-- DISTANCE_FACTORS.SUN.SCALE of CameraController.js. -/
def SUN_FACTORS_SCALE : ℝ := 0.4

/-- getPlanetPosition of CameraController.js: null selection resolves to
nothing, the Sun resolves to the origin, a moon selection carrying a position
resolves to that stored position, and any other selection is looked up in the
position registry. -/
def getPlanetPosition (sel : Option SelectedBody) (reg : Registry) : Option Vec3 :=
  match sel with
  | none => none
  | some q =>
    if q.isSun then some Vec3.origin
    else
      match q.storedPosition with
      | some p => if q.isMoon then some p else lookupKey reg q.name
      | none => lookupKey reg q.name

/-- The VERTICAL_OFFSET chosen by calculateCameraOffset in
CameraController.js: 0.3 for moons, 2.0 for Jupiter, 1.5 otherwise. -/
def offsetVerticalOffset (q : SelectedBody) : ℝ :=
  if q.isMoon then 0.3 else if q.name = "Jupiter" then 2.0 else 1.5

/-- The DISTANCE_FACTOR chosen by calculateCameraOffset in
CameraController.js: 8 for moons, 5 for Jupiter, 3 otherwise. -/
def offsetDistanceFactor (q : SelectedBody) : ℝ :=
  if q.isMoon then 8 else if q.name = "Jupiter" then 5 else 3

/-- calculateCameraOffset of CameraController.js. -/
noncomputable def calculateCameraOffset (planetPos : Vec3) (q : SelectedBody) : Vec3 :=
  let sunDirection := (Vec3.origin.sub planetPos).normalize
  (((sunDirection.smul (-1)).add
      (((Vec3.mk 0.3 0.7 0.2).normalize).smul (offsetVerticalOffset q))).normalize).smul
    (q.radius * offsetDistanceFactor q)

/-- Desired camera position computed each tick in the ZOOMING_IN branch of
CameraController.js: the resolved body position plus the per-body-class
offset (the fixed scaled Sun offset for the Sun, calculateCameraOffset for
every other body). -/
noncomputable def zoomTargetPosition (q : SelectedBody) (p : Vec3) : Vec3 :=
  if q.isSun then p.add (SUN_FACTORS_OFFSET.smul (q.radius * SUN_FACTORS_SCALE))
  else p.add (calculateCameraOffset p q)

/-- The MIN distance factor chosen in the DETAIL_VIEW branch of
CameraController.js: 1.5 for the Sun, 1.5 for moons, 1.2 for Jupiter and 1.2
for the default planet. -/
def detailMinFactor (q : SelectedBody) : ℝ :=
  if q.isSun then 1.5 else if q.isMoon then 1.5 else if q.name = "Jupiter" then 1.2 else 1.2

/-- The MAX distance factor chosen in the DETAIL_VIEW branch of
CameraController.js: 10 for the Sun, 15 for moons, 5 for Jupiter and 3 for
the default planet. -/
def detailMaxFactor (q : SelectedBody) : ℝ :=
  if q.isSun then 10 else if q.isMoon then 15 else if q.name = "Jupiter" then 5 else 3

/-- Mutable state touched by updateCameraState in CameraController.js: the
camera position, the invisible look-at target, the orbit controls target,
enabled flag and distance clamps (a maxDistance of none models Infinity), the
intro completion flag and the camera state enum. -/
structure CamSt where
  camPos : Vec3
  target : Vec3
  ctrlTarget : Vec3
  ctrlEnabled : Bool
  minDistance : ℝ
  maxDistance : Option ℝ
  introCompleted : Bool
  state : CameraState

/-- updateCameraState of CameraController.js, one tick of the camera state
machine. Each branch mirrors the corresponding case of the switch statement;
an early return leaves the state record unchanged. -/
noncomputable def updateCameraState (sel : Option SelectedBody) (reg : Registry)
    (s : CamSt) : CamSt :=
  match s.state with
  | CameraState.FREE =>
      { s with ctrlEnabled := true, maxDistance := none }
  | CameraState.DETAIL_VIEW =>
      match sel with
      | none => s
      | some q =>
        match getPlanetPosition (some q) reg with
        | none => s
        | some p =>
            { s with ctrlEnabled := true, ctrlTarget := p,
                     minDistance := q.radius * detailMinFactor q,
                     maxDistance := some (q.radius * detailMaxFactor q) }
  | CameraState.INTRO_ANIMATION =>
      if s.introCompleted then s
      else
        let cp := s.camPos.lerp CAMERA_HOME_POSITION 0.015
        if cp.distanceTo CAMERA_HOME_POSITION < 0.01 then
          { s with ctrlEnabled := false, camPos := CAMERA_HOME_POSITION,
                   introCompleted := true, state := CameraState.FREE }
        else { s with ctrlEnabled := false, camPos := cp }
  | CameraState.MOVING_TO_HOME =>
      let cp := s.camPos.lerp CAMERA_HOME_POSITION CAMERA_LERP_FACTOR
      let tg := s.target.lerp Vec3.origin CAMERA_LERP_FACTOR
      if cp.distanceTo CAMERA_HOME_POSITION < CAMERA_POSITION_EPSILON ∧
         tg.distanceTo Vec3.origin < CAMERA_POSITION_EPSILON then
        { s with ctrlEnabled := false, camPos := CAMERA_HOME_POSITION,
                 target := Vec3.origin, ctrlTarget := Vec3.origin,
                 maxDistance := none, state := CameraState.FREE }
      else { s with ctrlEnabled := false, camPos := cp, target := tg }
  | CameraState.ZOOMING_IN =>
      match sel with
      | none => s
      | some q =>
        match getPlanetPosition (some q) reg with
        | none => s
        | some p =>
            let tp := zoomTargetPosition q p
            let cp := s.camPos.lerp tp CAMERA_LERP_FACTOR
            let tg := s.target.lerp p CAMERA_FAST_LERP_FACTOR
            if cp.distanceTo tp < q.radius * CAMERA_POSITION_EPSILON ∧
               tg.distanceTo p < q.radius * CAMERA_POSITION_EPSILON then
              { s with ctrlEnabled := false, camPos := cp, target := tg,
                       ctrlTarget := tg, state := CameraState.DETAIL_VIEW }
            else { s with ctrlEnabled := false, camPos := cp, target := tg }

/-- One camera tick seen together with the selection: CameraController.js
only reads the selection (it never calls the selection setter), so the tick
returns the selection unchanged next to the updated camera state. -/
noncomputable def cameraTick (sel : Option SelectedBody) (reg : Registry)
    (s : CamSt) : Option SelectedBody × CamSt :=
  (sel, updateCameraState sel reg s)

/-- SPEED_PRESETS of SpeedControl.js. -/
def SPEED_PRESETS : List ℚ := [0, 1, 2, 5, 10]

/-- handleCycleSpeed of SpeedControl.js as a function from the camera state
and the current speed factor to the speed factor after the click: when the
control is disabled (ZOOMING_IN or DETAIL_VIEW) the setter is never invoked
and the speed factor is returned unchanged; otherwise the next preset is
selected, where the current preset is found by a 0.1-tolerance comparison and
a missing match yields JavaScript findIndex value -1. -/
def handleCycleSpeed (cameraState : CameraState) (speedFactor : ℚ) : ℚ :=
  if cameraState = CameraState.ZOOMING_IN ∨ cameraState = CameraState.DETAIL_VIEW then
    speedFactor
  else
    let currentIndex : Int :=
      match SPEED_PRESETS.findIdx? (fun s => decide (|speedFactor - s| < 1 / 10)) with
      | some i => (i : Int)
      | none => -1
    let nextIndex := (currentIndex + 1) % (SPEED_PRESETS.length : Int)
    SPEED_PRESETS.getD nextIndex.toNat 0

/-- Looking up the key just assigned returns the assigned value. -/
theorem lookupKey_setKey_self {α : Type} (m : List (String × α)) (k : String) (v : α) :
    lookupKey (setKey m k v) k = some v := by
  induction m with
  | nil => simp [setKey, lookupKey]
  | cons hd tl ih =>
    obtain ⟨a, b⟩ := hd
    by_cases h : a = k
    · simp [setKey, h, lookupKey]
    · simp [setKey, h, lookupKey, ih]

/-- Assignment does not disturb the bindings of other keys. -/
theorem lookupKey_setKey_other {α : Type} (m : List (String × α)) (k k2 : String)
    (v : α) (h : k2 ≠ k) : lookupKey (setKey m k v) k2 = lookupKey m k2 := by
  have hk : ¬ k = k2 := fun hh => h hh.symm
  induction m with
  | nil => simp only [setKey, lookupKey, if_neg hk]
  | cons hd tl ih =>
    obtain ⟨a, b⟩ := hd
    by_cases ha : a = k
    · subst ha
      simp only [setKey, if_pos rfl, lookupKey, if_neg hk]
    · simp only [setKey, if_neg ha, lookupKey]
      by_cases ha2 : a = k2
      · simp only [if_pos ha2]
      · simp only [if_neg ha2, ih]

/-- The loop body in uniform form: compare the stored binding against the
tick value and write it together with the hasChanges flag exactly when they
differ. -/
theorem stepPlanet_eq (sf dt : ℝ) (prev : ProgMap) (acc : ProgMap × Bool)
    (p : PlanetData) :
    stepPlanet sf dt prev acc p =
      if lookupKey acc.1 p.name ≠ some (stepValue sf dt prev p) then
        (setKey acc.1 p.name (stepValue sf dt prev p), true)
      else acc := by
  unfold stepPlanet stepValue
  by_cases h : p.isSun = true <;> simp [h]

/-- The loop body leaves the bindings of every other name unchanged. -/
theorem stepPlanet_lookup_other (sf dt : ℝ) (prev : ProgMap) (acc : ProgMap × Bool)
    (p : PlanetData) (k : String) (h : k ≠ p.name) :
    lookupKey (stepPlanet sf dt prev acc p).1 k = lookupKey acc.1 k := by
  rw [stepPlanet_eq]
  by_cases hc : lookupKey acc.1 p.name ≠ some (stepValue sf dt prev p)
  · rw [if_pos hc]
    exact lookupKey_setKey_other _ _ _ _ h
  · rw [if_neg hc]

/-- A loop iteration that reports no change is the identity on the
accumulator. -/
theorem stepPlanet_flag_false (sf dt : ℝ) (prev : ProgMap) (acc : ProgMap × Bool)
    (p : PlanetData) (h : (stepPlanet sf dt prev acc p).2 = false) :
    stepPlanet sf dt prev acc p = acc := by
  rw [stepPlanet_eq] at h ⊢
  by_cases hc : lookupKey acc.1 p.name ≠ some (stepValue sf dt prev p)
  · rw [if_pos hc] at h
    simp at h
  · rw [if_neg hc]

/-- The whole fold leaves names outside the processed catalog untouched. -/
theorem foldl_lookup_notMem (sf dt : ℝ) (prev : ProgMap) (ps : List PlanetData)
    (k : String) (h : k ∉ ps.map PlanetData.name) (acc : ProgMap × Bool) :
    lookupKey (List.foldl (stepPlanet sf dt prev) acc ps).1 k = lookupKey acc.1 k := by
  induction ps generalizing acc with
  | nil => simp
  | cons q rest ih =>
    simp only [List.map_cons, List.mem_cons, not_or] at h
    simp only [List.foldl_cons]
    rw [ih h.2, stepPlanet_lookup_other _ _ _ _ _ _ h.1]

/-- A fold that reports no change is the identity on the accumulator. -/
theorem foldl_flag_false (sf dt : ℝ) (prev : ProgMap) (ps : List PlanetData)
    (acc : ProgMap × Bool)
    (h : (List.foldl (stepPlanet sf dt prev) acc ps).2 = false) :
    List.foldl (stepPlanet sf dt prev) acc ps = acc := by
  induction ps generalizing acc with
  | nil => simp
  | cons q rest ih =>
    simp only [List.foldl_cons] at h ⊢
    have h1 := ih _ h
    rw [h1] at h ⊢
    exact stepPlanet_flag_false _ _ _ _ _ h

/-- After its loop iteration, a star carries binding zero. -/
theorem stepPlanet_sun_lookup (sf dt : ℝ) (prev : ProgMap) (acc : ProgMap × Bool)
    (p : PlanetData) (hsun : p.isSun = true) :
    lookupKey (stepPlanet sf dt prev acc p).1 p.name = some 0 := by
  rw [stepPlanet_eq]
  have hv : stepValue sf dt prev p = 0 := by simp [stepValue, hsun]
  by_cases hc : lookupKey acc.1 p.name ≠ some (stepValue sf dt prev p)
  · rw [if_pos hc, hv]
    exact lookupKey_setKey_self _ _ _
  · rw [if_neg hc]
    rw [not_ne_iff] at hc
    rw [hc, hv]

/-- After the whole fold, a star in a duplicate-free catalog carries binding
zero. -/
theorem foldl_sun_lookup (sf dt : ℝ) (prev : ProgMap) (ps : List PlanetData)
    (p : PlanetData) (hnd : (ps.map PlanetData.name).Nodup) (hmem : p ∈ ps)
    (hsun : p.isSun = true) (acc : ProgMap × Bool) :
    lookupKey (List.foldl (stepPlanet sf dt prev) acc ps).1 p.name = some 0 := by
  induction ps generalizing acc with
  | nil => cases hmem
  | cons q rest ih =>
    simp only [List.map_cons, List.nodup_cons] at hnd
    rcases List.mem_cons.mp hmem with hq | hr
    · subst hq
      simp only [List.foldl_cons]
      rw [foldl_lookup_notMem _ _ _ _ _ hnd.1]
      exact stepPlanet_sun_lookup _ _ _ _ _ hsun
    · simp only [List.foldl_cons]
      exact ih hnd.2 hr _

/-- At speed factor zero the per-tick increment vanishes. -/
theorem progressIncrement_zero (p : PlanetData) (dt : ℝ) :
    progressIncrement p 0 dt = 0 := by
  simp [progressIncrement, orbitSpeedRadians]

/-- At speed factor zero, over a progress map that binds every catalog name
and binds every star to zero, the fold performs no write at all. -/
theorem foldl_zero_speed (dt : ℝ) (prev : ProgMap) (ps : List PlanetData)
    (hc : ∀ p ∈ ps, ∃ v, lookupKey prev p.name = some v ∧ (p.isSun = true → v = 0)) :
    List.foldl (stepPlanet 0 dt prev) (prev, false) ps = (prev, false) := by
  induction ps with
  | nil => simp
  | cons q rest ih =>
    obtain ⟨v, hv, hvs⟩ := hc q (List.mem_cons_self q rest)
    have hstep : stepPlanet 0 dt prev (prev, false) q = (prev, false) := by
      rw [stepPlanet_eq]
      have : lookupKey prev q.name = some (stepValue 0 dt prev q) := by
        by_cases hs : q.isSun = true
        · rw [hv, hvs hs]
          simp [stepValue, hs]
        · simp only [stepValue, hs, if_false]
          rw [hv, progressIncrement_zero]
          simp
      rw [if_neg (not_ne_iff.mpr this)]
    simp only [List.foldl_cons, hstep]
    exact ih (fun p hp => hc p (List.mem_cons_of_mem _ hp))

/-- The Kepler factor of a positive distance is positive. -/
theorem keplerFactor_pos (d : ℝ) (hd : 0 < d) : 0 < keplerFactor d := by
  unfold keplerFactor
  apply Real.sqrt_pos.mpr
  positivity

/-- On positive distances the Kepler factor is strictly antitone: the closer
body gets the strictly larger factor. -/
theorem keplerFactor_strictAnti (a b : ℝ) (ha : 0 < a) (hab : a < b) :
    keplerFactor b < keplerFactor a := by
  have hb : 0 < b := ha.trans hab
  have h3 : a ^ 3 < b ^ 3 := by
    nlinarith [mul_pos ha hb, mul_pos (mul_pos ha ha) hb, mul_pos ha (mul_pos hb hb),
      sq_nonneg (a + b), sq_nonneg (a - b)]
  unfold keplerFactor
  exact Real.sqrt_lt_sqrt (by positivity) (one_div_lt_one_div_of_lt (by positivity) h3)

/-- The Kepler factor of a positive distance is the real power with exponent
minus three halves, the form used in the specification. -/
theorem keplerFactor_eq_rpow (d : ℝ) (hd : 0 < d) :
    keplerFactor d = d ^ (-(3 / 2) : ℝ) := by
  unfold keplerFactor
  rw [Real.sqrt_eq_rpow]
  have h1 : (1 : ℝ) / d ^ 3 = d ^ (-3 : ℝ) := by
    rw [Real.rpow_neg hd.le, ← Real.rpow_natCast d 3]
    norm_num
  rw [h1, ← Real.rpow_mul hd.le]
  norm_num

/-- The Kepler factor at distance 8 in closed form. -/
theorem keplerFactor_eight : keplerFactor 8 = Real.sqrt 2 / 32 := by
  unfold keplerFactor
  rw [show (1 : ℝ) / (8 : ℝ) ^ 3 = (Real.sqrt 2 / 32) ^ 2 by
    rw [div_pow, Real.sq_sqrt (by norm_num : (0 : ℝ) ≤ 2)]
    norm_num]
  exact Real.sqrt_sq (by positivity)

/-- The planet of Scenario A of the specification: orbit radius 8, catalog
orbit speed 1, not the star. -/
def earthBody : PlanetData := ⟨"Earth", false, 8, 1⟩

@[simp] theorem earthBody_name : earthBody.name = "Earth" := rfl

@[simp] theorem earthBody_isSun : earthBody.isSun = false := rfl

@[simp] theorem earthBody_positionX : earthBody.positionX = 8 := rfl

@[simp] theorem earthBody_orbitSpeed : earthBody.orbitSpeed = 1 := rfl

/-- C1 counterexample: at orbit radius 8, orbit speed 1, speedFactor 1 and
deltaTime 1 the per-tick angular increment computed by PlanetsUpdater.js is
not the value orbitAngularSpeed * 50 * orbitRadius^(-1.5) * speedFactor *
deltaTime claimed by the specification: the code divides by 360 and
multiplies by 2 * PI, so the claimed value is larger by the factor 180 / PI. -/
theorem c1_counterexample :
    progressIncrement earthBody 1 1 ≠ 1 * 50 * (8 : ℝ) ^ (-(3 / 2) : ℝ) * 1 * 1 := by
  intro h
  have hk := keplerFactor_eq_rpow 8 (by norm_num)
  rw [← hk] at h
  unfold progressIncrement orbitSpeedRadians ORBIT_SPEED_FACTOR at h
  simp only [earthBody_orbitSpeed, earthBody_positionX] at h
  have hkpos : 0 < keplerFactor 8 := keplerFactor_pos 8 (by norm_num)
  nlinarith [mul_pos hkpos (show (0 : ℝ) < 18000 - 100 * Real.pi by
    nlinarith [Real.pi_lt_d2])]

/-- C1 amended: for every positive orbit radius the per-tick angular progress
increment equals orbitAngularSpeed * 50 * orbitRadius^(-1.5) * (PI / 180) *
speedFactor * deltaTime; in particular for a planet with orbit radius 8 and
orbit speed 1, one tick with deltaTime 1 and speedFactor 1 adds an angular
delta strictly between 0.038 and 0.039 radians, stores it in the progress
map, and the resulting position is (8 cos delta, 0, 8 sin delta). -/
theorem c1_amended :
    (∀ s x sf dt : ℝ, 0 < x →
      orbitSpeedRadians s x sf * dt =
        s * 50 * x ^ (-(3 / 2) : ℝ) * (Real.pi / 180) * sf * dt) ∧
    0.038 < progressIncrement earthBody 1 1 ∧
    progressIncrement earthBody 1 1 < 0.039 ∧
    lookupKey (advanceProgress [earthBody] 1 1 [("Earth", 0)]).1 "Earth" =
      some (progressIncrement earthBody 1 1) ∧
    positionsOf [earthBody] (advanceProgress [earthBody] 1 1 [("Earth", 0)]).1 =
      [("Earth", planetPosition 8 (progressIncrement earthBody 1 1))] := by
  have hpil := Real.pi_gt_d6
  have hpiu := Real.pi_lt_d2
  have hs0 : (0 : ℝ) ≤ Real.sqrt 2 := Real.sqrt_nonneg 2
  have hs2 : Real.sqrt 2 ^ 2 = 2 := Real.sq_sqrt (by norm_num)
  have hs2l : (1.414 : ℝ) < Real.sqrt 2 := by nlinarith
  have hs2u : Real.sqrt 2 < 1.415 := by nlinarith
  have hd : progressIncrement earthBody 1 1 = 5 * Real.sqrt 2 * Real.pi / 576 := by
    unfold progressIncrement orbitSpeedRadians ORBIT_SPEED_FACTOR
    simp only [earthBody_orbitSpeed, earthBody_positionX]
    rw [keplerFactor_eight]
    ring
  have hprodl : (1.414 : ℝ) * 3.141592 < Real.sqrt 2 * Real.pi := by nlinarith
  have hprodu : Real.sqrt 2 * Real.pi < 1.415 * 3.15 := by nlinarith
  have hlb : (0.038 : ℝ) < progressIncrement earthBody 1 1 := by
    rw [hd]; nlinarith
  have hub : progressIncrement earthBody 1 1 < 0.039 := by
    rw [hd]; nlinarith
  have hdpos : 0 < progressIncrement earthBody 1 1 := lt_trans (by norm_num) hlb
  have hadv : (advanceProgress [earthBody] 1 1 [("Earth", 0)]).1 =
      [("Earth", (0 : ℝ) + progressIncrement earthBody 1 1)] := by
    unfold advanceProgress
    simp only [List.foldl_cons, List.foldl_nil]
    rw [stepPlanet_eq]
    have hsv : stepValue 1 1 [("Earth", (0 : ℝ))] earthBody =
        0 + progressIncrement earthBody 1 1 := by
      simp [stepValue, lookupKey]
    rw [hsv]
    have hne : lookupKey [("Earth", (0 : ℝ))] "Earth" ≠
        some (0 + progressIncrement earthBody 1 1) := by
      have hl : lookupKey [("Earth", (0 : ℝ))] "Earth" = some 0 := by
        simp [lookupKey]
      rw [hl, ne_eq, Option.some.injEq, zero_add]
      exact hdpos.ne
    simp only [earthBody_name]
    rw [if_pos hne]
    simp [setKey]
  refine ⟨?_, hlb, hub, ?_, ?_⟩
  · intro s x sf dt hx
    unfold orbitSpeedRadians ORBIT_SPEED_FACTOR
    rw [keplerFactor_eq_rpow x hx]
    ring
  · rw [hadv]
    simp [lookupKey]
  · rw [hadv]
    unfold positionsOf
    simp [lookupKey]

/-- C1 amended witness: the general increment formula instantiated at orbit
speed 1, orbit radius 8, speedFactor 1 and deltaTime 1. -/
theorem c1_amended_witness :
    (0 : ℝ) < 8 ∧
    orbitSpeedRadians 1 8 1 * 1 =
      1 * 50 * (8 : ℝ) ^ (-(3 / 2) : ℝ) * (Real.pi / 180) * 1 * 1 :=
  ⟨by norm_num, c1_amended.1 1 8 1 1 (by norm_num)⟩

/-- A fold that reports a change produced a map that differs from the
previous map at some name, provided the catalog has no duplicate names. -/
theorem foldl_flag_true_diff (sf dt : ℝ) (prev : ProgMap) (ps : List PlanetData)
    (hnd : (ps.map PlanetData.name).Nodup)
    (h : (List.foldl (stepPlanet sf dt prev) (prev, false) ps).2 = true) :
    ∃ k, lookupKey (List.foldl (stepPlanet sf dt prev) (prev, false) ps).1 k ≠
      lookupKey prev k := by
  induction ps with
  | nil => simp at h
  | cons q rest ih =>
    simp only [List.map_cons, List.nodup_cons] at hnd
    simp only [List.foldl_cons, stepPlanet_eq] at h ⊢
    by_cases hc : lookupKey prev q.name ≠ some (stepValue sf dt prev q)
    · rw [if_pos hc] at h ⊢
      refine ⟨q.name, ?_⟩
      rw [foldl_lookup_notMem _ _ _ _ _ hnd.1 _]
      rw [lookupKey_setKey_self]
      exact Ne.symm hc
    · rw [if_neg hc] at h ⊢
      exact ih hnd.2 h

/-- The Sun of the demonstration catalog. -/
def sunBody : PlanetData := ⟨"Sun", true, 0, 0⟩

@[simp] theorem sunBody_name : sunBody.name = "Sun" := rfl

@[simp] theorem sunBody_isSun : sunBody.isSun = true := rfl

/-- C5: the star invariant. After any orbital tick over a duplicate-free
catalog the progress entry of every star is zero, for every speed factor,
delta time and previous map; and getPlanetPosition resolves any star
selection to the origin, for every registry. -/
theorem c5_star_invariant :
    (∀ (planets : List PlanetData) (sf dt : ℝ) (prev : ProgMap) (p : PlanetData),
      (planets.map PlanetData.name).Nodup → p ∈ planets → p.isSun = true →
      lookupKey (advanceProgress planets sf dt prev).1 p.name = some 0) ∧
    (∀ (q : SelectedBody) (reg : Registry), q.isSun = true →
      getPlanetPosition (some q) reg = some Vec3.origin) := by
  constructor
  · intro planets sf dt prev p hnd hmem hsun
    unfold advanceProgress
    by_cases hflag : (planets.foldl (stepPlanet sf dt prev) (prev, false)).2 = true
    · simp only [hflag, if_true]
      exact foldl_sun_lookup sf dt prev planets p hnd hmem hsun _
    · have hf : (planets.foldl (stepPlanet sf dt prev) (prev, false)).2 = false :=
        Bool.not_eq_true _ ▸ (by simpa using hflag)
      have heq := foldl_flag_false sf dt prev planets (prev, false) hf
      have h0 := foldl_sun_lookup sf dt prev planets p hnd hmem hsun (prev, false)
      rw [heq] at h0
      simpa [hf] using h0
  · intro q reg hq
    simp [getPlanetPosition, hq]

/-- C5 witness: one tick of a two-body catalog at speed factor 2 keeps the
Sun entry at zero, and the Sun selection resolves to the origin. -/
theorem c5_star_invariant_witness :
    lookupKey (advanceProgress [sunBody, earthBody] 2 1 [("Sun", 0), ("Earth", 0)]).1
      "Sun" = some 0 ∧
    getPlanetPosition (some ⟨"Sun", 5, true, false, none⟩) [] = some Vec3.origin :=
  ⟨c5_star_invariant.1 [sunBody, earthBody] 2 1 [("Sun", 0), ("Earth", 0)] sunBody
      (by simp) (by simp) rfl,
    c5_star_invariant.2 ⟨"Sun", 5, true, false, none⟩ [] rfl⟩

/-- C7: referential stability of the orbital tick. A cleared hasChanges flag
returns the previous map itself; over a duplicate-free catalog a set flag
means the returned map really differs from the previous map at some name;
and at speed factor zero, over a map that binds every catalog name and binds
stars to zero, the tick returns the previous map with the flag cleared. -/
theorem c7_referential_stability :
    ∀ (planets : List PlanetData) (sf dt : ℝ) (prev : ProgMap),
      ((advanceProgress planets sf dt prev).2 = false →
        (advanceProgress planets sf dt prev).1 = prev) ∧
      ((planets.map PlanetData.name).Nodup →
        (advanceProgress planets sf dt prev).2 = true →
        (advanceProgress planets sf dt prev).1 ≠ prev) ∧
      (sf = 0 →
        (∀ p ∈ planets, ∃ v, lookupKey prev p.name = some v ∧
          (p.isSun = true → v = 0)) →
        advanceProgress planets sf dt prev = (prev, false)) := by
  intro planets sf dt prev
  refine ⟨?_, ?_, ?_⟩
  · intro hflag
    unfold advanceProgress at hflag ⊢
    simp only at hflag
    simp [hflag]
  · intro hnd hflag
    unfold advanceProgress at hflag ⊢
    simp only at hflag
    obtain ⟨k, hk⟩ := foldl_flag_true_diff sf dt prev planets hnd hflag
    simp only [hflag, if_true]
    intro heq
    exact hk (by rw [heq])
  · intro hsf hc
    subst hsf
    unfold advanceProgress
    rw [foldl_zero_speed dt prev planets hc]
    simp

/-- C7 witness: a paused tick (speed factor zero) over the fully initialised
two-body map returns the previous map itself with the flag cleared, and a
cleared flag indeed means the previous map is returned. -/
theorem c7_referential_stability_witness :
    advanceProgress [sunBody, earthBody] 0 1 [("Sun", 0), ("Earth", 0)] =
      ([("Sun", 0), ("Earth", 0)], false) ∧
    (advanceProgress [sunBody, earthBody] 0 1 [("Sun", 0), ("Earth", 0)]).1 =
      [("Sun", 0), ("Earth", 0)] := by
  have hcomplete : ∀ p ∈ [sunBody, earthBody], ∃ v,
      lookupKey [("Sun", (0 : ℝ)), ("Earth", 0)] p.name = some v ∧
      (p.isSun = true → v = 0) := by
    intro p hp
    rcases List.mem_cons.mp hp with h | h
    · exact ⟨0, by rw [h]; simp [lookupKey], fun _ => rfl⟩
    · rcases List.mem_cons.mp h with h2 | h2
      · exact ⟨0, by rw [h2]; simp [lookupKey], fun _ => rfl⟩
      · cases h2
  have h3 := (c7_referential_stability [sunBody, earthBody] 0 1
    [("Sun", 0), ("Earth", 0)]).2.2 rfl hcomplete
  refine ⟨h3, ?_⟩
  exact (c7_referential_stability [sunBody, earthBody] 0 1
    [("Sun", 0), ("Earth", 0)]).1 (by rw [h3])

/-- C6 counterexample: two non-star bodies at radii 8 and 27 with equal
orbit angular speed zero receive equal (zero) increments after a tick with
deltaTime 1 and speedFactor 1, so the increment of the closer body is not
strictly greater. -/
theorem c6_counterexample :
    (⟨"A", false, 8, 0⟩ : PlanetData).positionX <
      (⟨"B", false, 27, 0⟩ : PlanetData).positionX ∧
    (⟨"A", false, 8, 0⟩ : PlanetData).orbitSpeed =
      (⟨"B", false, 27, 0⟩ : PlanetData).orbitSpeed ∧
    ¬ progressIncrement ⟨"B", false, 27, 0⟩ 1 1 <
        progressIncrement ⟨"A", false, 8, 0⟩ 1 1 := by
  refine ⟨by norm_num, rfl, ?_⟩
  have hA : progressIncrement ⟨"A", false, 8, 0⟩ 1 1 = 0 := by
    simp [progressIncrement, orbitSpeedRadians]
  have hB : progressIncrement ⟨"B", false, 27, 0⟩ 1 1 = 0 := by
    simp [progressIncrement, orbitSpeedRadians]
  rw [hA, hB]
  exact lt_irrefl 0

/-- C6 amended: for two non-star bodies with positive orbit radii, equal
positive orbit angular speed, and the first strictly closer to the origin,
any tick with positive deltaTime and positive speedFactor gives the closer
body a strictly greater progress increment. -/
theorem c6_amended (A B : PlanetData) (sf dt : ℝ) (hrA : 0 < A.positionX)
    (hAB : A.positionX < B.positionX) (hs : 0 < A.orbitSpeed)
    (heq : A.orbitSpeed = B.orbitSpeed) (hsf : 0 < sf) (hdt : 0 < dt) :
    progressIncrement B sf dt < progressIncrement A sf dt := by
  have hk := keplerFactor_strictAnti A.positionX B.positionX hrA hAB
  have hc : 0 < A.orbitSpeed * 50 / 360 * (2 * Real.pi) * sf * dt := by positivity
  unfold progressIncrement orbitSpeedRadians ORBIT_SPEED_FACTOR
  rw [← heq]
  calc A.orbitSpeed * 50 * keplerFactor B.positionX / 360 * (2 * Real.pi) * sf * dt
      = keplerFactor B.positionX *
          (A.orbitSpeed * 50 / 360 * (2 * Real.pi) * sf * dt) := by ring
    _ < keplerFactor A.positionX *
          (A.orbitSpeed * 50 / 360 * (2 * Real.pi) * sf * dt) :=
        mul_lt_mul_of_pos_right hk hc
    _ = A.orbitSpeed * 50 * keplerFactor A.positionX / 360 * (2 * Real.pi) * sf * dt := by
        ring

/-- C6 amended witness: the amended statement instantiated at radii 8 and 27
with orbit speed 1, deltaTime 1 and speedFactor 1. -/
theorem c6_amended_witness :
    progressIncrement ⟨"Far", false, 27, 1⟩ 1 1 < progressIncrement earthBody 1 1 :=
  c6_amended earthBody ⟨"Far", false, 27, 1⟩ 1 1 (by norm_num) (by norm_num)
    (by norm_num) rfl (by norm_num) (by norm_num)

/-- C9: the orbital advance is deterministic. Replaying any fixed sequence of
(deltaTime, speedFactor) ticks from equal initial progress maps yields equal
progress maps and equal derived positions. -/
theorem c9_determinism :
    ∀ (planets : List PlanetData) (steps : List (ℝ × ℝ)) (m1 m2 : ProgMap),
      m1 = m2 →
      runAdvance planets steps m1 = runAdvance planets steps m2 ∧
      positionsOf planets (runAdvance planets steps m1) =
        positionsOf planets (runAdvance planets steps m2) := by
  intro planets steps m1 m2 h
  subst h
  exact ⟨rfl, rfl⟩

/-- C9 witness: determinism instantiated on a concrete two-tick replay. -/
theorem c9_determinism_witness :
    runAdvance [sunBody, earthBody] [(1, 1), (2, 0)] [("Sun", 0), ("Earth", 0)] =
      runAdvance [sunBody, earthBody] [(1, 1), (2, 0)] [("Sun", 0), ("Earth", 0)] ∧
    positionsOf [sunBody, earthBody]
        (runAdvance [sunBody, earthBody] [(1, 1), (2, 0)] [("Sun", 0), ("Earth", 0)]) =
      positionsOf [sunBody, earthBody]
        (runAdvance [sunBody, earthBody] [(1, 1), (2, 0)] [("Sun", 0), ("Earth", 0)]) :=
  c9_determinism [sunBody, earthBody] [(1, 1), (2, 0)] [("Sun", 0), ("Earth", 0)]
    [("Sun", 0), ("Earth", 0)] rfl

/-- C10: while the camera is ZOOMING_IN or in DETAIL_VIEW the speed cycle
control is a no-op: the user speed factor is returned unchanged. -/
theorem c10_cycle_noop :
    ∀ (s : CameraState) (f : ℚ),
      s = CameraState.ZOOMING_IN ∨ s = CameraState.DETAIL_VIEW →
      handleCycleSpeed s f = f := by
  intro s f h
  unfold handleCycleSpeed
  rw [if_pos h]

/-- C10 witness: the cycle control leaves concrete speed factors unchanged in
both locked camera states. -/
theorem c10_cycle_noop_witness :
    handleCycleSpeed CameraState.ZOOMING_IN 5 = 5 ∧
    handleCycleSpeed CameraState.DETAIL_VIEW 0 = 0 :=
  ⟨c10_cycle_noop CameraState.ZOOMING_IN 5 (Or.inl rfl),
    c10_cycle_noop CameraState.DETAIL_VIEW 0 (Or.inr rfl)⟩

/-- Interpolating a point toward itself is the identity. -/
theorem Vec3.lerp_self (a : Vec3) (t : ℝ) : a.lerp a t = a := by
  simp [Vec3.lerp]

/-- The distance from a point to itself is zero. -/
theorem Vec3.distanceTo_self (a : Vec3) : a.distanceTo a = 0 := by
  simp [Vec3.distanceTo, Vec3.sub, Vec3.length]

/-- The MOVING_TO_HOME branch of updateCameraState in closed form. -/
theorem updateCameraState_movingHome (sel : Option SelectedBody) (reg : Registry)
    (s : CamSt) (hst : s.state = CameraState.MOVING_TO_HOME) :
    updateCameraState sel reg s =
      if (s.camPos.lerp CAMERA_HOME_POSITION CAMERA_LERP_FACTOR).distanceTo
            CAMERA_HOME_POSITION < CAMERA_POSITION_EPSILON ∧
         (s.target.lerp Vec3.origin CAMERA_LERP_FACTOR).distanceTo Vec3.origin <
            CAMERA_POSITION_EPSILON then
        { s with ctrlEnabled := false, camPos := CAMERA_HOME_POSITION,
                 target := Vec3.origin, ctrlTarget := Vec3.origin,
                 maxDistance := none, state := CameraState.FREE }
      else { s with ctrlEnabled := false,
                    camPos := s.camPos.lerp CAMERA_HOME_POSITION CAMERA_LERP_FACTOR,
                    target := s.target.lerp Vec3.origin CAMERA_LERP_FACTOR } := by
  simp only [updateCameraState, hst]

/-- The ZOOMING_IN branch of updateCameraState in closed form, for a
selection whose position resolves. -/
theorem updateCameraState_zoomingIn (q : SelectedBody) (reg : Registry)
    (s : CamSt) (hst : s.state = CameraState.ZOOMING_IN) (p : Vec3)
    (hp : getPlanetPosition (some q) reg = some p) :
    updateCameraState (some q) reg s =
      if (s.camPos.lerp (zoomTargetPosition q p) CAMERA_LERP_FACTOR).distanceTo
            (zoomTargetPosition q p) < q.radius * CAMERA_POSITION_EPSILON ∧
         (s.target.lerp p CAMERA_FAST_LERP_FACTOR).distanceTo p <
            q.radius * CAMERA_POSITION_EPSILON then
        { s with ctrlEnabled := false,
                 camPos := s.camPos.lerp (zoomTargetPosition q p) CAMERA_LERP_FACTOR,
                 target := s.target.lerp p CAMERA_FAST_LERP_FACTOR,
                 ctrlTarget := s.target.lerp p CAMERA_FAST_LERP_FACTOR,
                 state := CameraState.DETAIL_VIEW }
      else { s with ctrlEnabled := false,
                    camPos := s.camPos.lerp (zoomTargetPosition q p) CAMERA_LERP_FACTOR,
                    target := s.target.lerp p CAMERA_FAST_LERP_FACTOR } := by
  simp only [updateCameraState, hst, hp]

/-- The DETAIL_VIEW branch of updateCameraState in closed form, for a
selection whose position resolves. -/
theorem updateCameraState_detailView (q : SelectedBody) (reg : Registry)
    (s : CamSt) (hst : s.state = CameraState.DETAIL_VIEW) (p : Vec3)
    (hp : getPlanetPosition (some q) reg = some p) :
    updateCameraState (some q) reg s =
      { s with ctrlEnabled := true, ctrlTarget := p,
               minDistance := q.radius * detailMinFactor q,
               maxDistance := some (q.radius * detailMaxFactor q) } := by
  simp only [updateCameraState, hst, hp]

/-- A concrete camera state sitting in ZOOMING_IN. -/
def zoomSt : CamSt :=
  ⟨⟨0, 0, 0⟩, ⟨0, 0, 0⟩, ⟨0, 0, 0⟩, false, 0, none, true, CameraState.ZOOMING_IN⟩

/-- A concrete camera state sitting in MOVING_TO_HOME already at the home
pose. -/
def homeSt : CamSt :=
  ⟨CAMERA_HOME_POSITION, Vec3.origin, Vec3.origin, false, 0, none, true,
    CameraState.MOVING_TO_HOME⟩

/-- A concrete camera state sitting in DETAIL_VIEW. -/
def detailSt : CamSt :=
  ⟨Vec3.origin, Vec3.origin, Vec3.origin, true, 0, none, true,
    CameraState.DETAIL_VIEW⟩

/-- A concrete default-planet selection of radius 1. -/
def earthSel : SelectedBody := ⟨"Earth", 1, false, false, none⟩

/-- A concrete moon selection of radius 1 carrying its stored position. -/
def moonSel : SelectedBody := ⟨"Moon", 1, false, true, some ⟨8, 0, 1⟩⟩

/-- A concrete star selection of radius 5. -/
def sunSel : SelectedBody := ⟨"Sun", 5, true, false, none⟩

/-- A registry holding only the default planet. -/
def earthReg : Registry := [("Earth", ⟨8, 0, 0⟩)]

/-- C3 counterexample: with the selection cleared while the machine sits in
ZOOMING_IN, the next tick does not transition to MOVING_TO_HOME: the early
return leaves the machine in ZOOMING_IN. -/
theorem c3_counterexample :
    ¬ (updateCameraState none [] zoomSt).state = CameraState.MOVING_TO_HOME := by
  have h : updateCameraState none [] zoomSt = zoomSt := by
    simp only [updateCameraState, zoomSt]
  rw [h]
  simp [zoomSt]

/-- C3 amended: during ZOOMING_IN, a cleared selection or an unresolvable
position makes the tick a no-op: the whole camera state, the machine state
included, is returned unchanged, and in particular nothing is thrown. -/
theorem c3_amended (sel : Option SelectedBody) (reg : Registry) (s : CamSt)
    (hz : s.state = CameraState.ZOOMING_IN)
    (h : sel = none ∨ getPlanetPosition sel reg = none) :
    updateCameraState sel reg s = s := by
  rcases h with h | h
  · subst h
    simp only [updateCameraState, hz]
  · cases sel with
    | none => simp only [updateCameraState, hz]
    | some q => simp only [updateCameraState, hz, h]

/-- C3 amended witness: the no-op tick on a concrete ZOOMING_IN state with a
cleared selection. -/
theorem c3_amended_witness : updateCameraState none [] zoomSt = zoomSt :=
  c3_amended none [] zoomSt rfl (Or.inl rfl)

/-- C2: during ZOOMING_IN with a resolvable selection, the camera position
lerps toward the resolved live position plus the per-body-class offset, the
look-at target lerps toward the resolved live position itself, and the
machine transitions to DETAIL_VIEW exactly when both the camera-position
error and the look-at error are simultaneously below the body radius times
the position epsilon. -/
theorem c2_zooming_in (q : SelectedBody) (reg : Registry) (s : CamSt)
    (hst : s.state = CameraState.ZOOMING_IN) (p : Vec3)
    (hp : getPlanetPosition (some q) reg = some p) :
    (updateCameraState (some q) reg s).camPos =
      s.camPos.lerp (zoomTargetPosition q p) CAMERA_LERP_FACTOR ∧
    (updateCameraState (some q) reg s).target =
      s.target.lerp p CAMERA_FAST_LERP_FACTOR ∧
    ((updateCameraState (some q) reg s).state = CameraState.DETAIL_VIEW ↔
      (s.camPos.lerp (zoomTargetPosition q p) CAMERA_LERP_FACTOR).distanceTo
          (zoomTargetPosition q p) < q.radius * CAMERA_POSITION_EPSILON ∧
      (s.target.lerp p CAMERA_FAST_LERP_FACTOR).distanceTo p <
          q.radius * CAMERA_POSITION_EPSILON) := by
  rw [updateCameraState_zoomingIn q reg s hst p hp]
  by_cases hc : (s.camPos.lerp (zoomTargetPosition q p) CAMERA_LERP_FACTOR).distanceTo
      (zoomTargetPosition q p) < q.radius * CAMERA_POSITION_EPSILON ∧
      (s.target.lerp p CAMERA_FAST_LERP_FACTOR).distanceTo p <
      q.radius * CAMERA_POSITION_EPSILON
  · rw [if_pos hc]
    exact ⟨rfl, rfl, by simp [hc]⟩
  · rw [if_neg hc]
    exact ⟨rfl, rfl, by simp [hst, hc]⟩

/-- C2 witness: the ZOOMING_IN tick characterisation instantiated on a
concrete star selection whose position resolves to the origin. -/
theorem c2_zooming_in_witness :
    (updateCameraState (some sunSel) [] zoomSt).camPos =
      zoomSt.camPos.lerp (zoomTargetPosition sunSel Vec3.origin) CAMERA_LERP_FACTOR ∧
    (updateCameraState (some sunSel) [] zoomSt).target =
      zoomSt.target.lerp Vec3.origin CAMERA_FAST_LERP_FACTOR ∧
    ((updateCameraState (some sunSel) [] zoomSt).state = CameraState.DETAIL_VIEW ↔
      (zoomSt.camPos.lerp (zoomTargetPosition sunSel Vec3.origin)
          CAMERA_LERP_FACTOR).distanceTo (zoomTargetPosition sunSel Vec3.origin) <
        sunSel.radius * CAMERA_POSITION_EPSILON ∧
      (zoomSt.target.lerp Vec3.origin CAMERA_FAST_LERP_FACTOR).distanceTo Vec3.origin <
        sunSel.radius * CAMERA_POSITION_EPSILON) :=
  c2_zooming_in sunSel [] zoomSt rfl Vec3.origin (by simp [getPlanetPosition, sunSel])

/-- C4 counterexample: a converged MOVING_TO_HOME tick transitions to FREE
while the selection, which the camera controller never writes, is still the
selected planet and not None. -/
theorem c4_counterexample :
    (cameraTick (some earthSel) [] homeSt).2.state = CameraState.FREE ∧
    (cameraTick (some earthSel) [] homeSt).1 = some earthSel ∧
    some earthSel ≠ (none : Option SelectedBody) := by
  have hcond : (homeSt.camPos.lerp CAMERA_HOME_POSITION CAMERA_LERP_FACTOR).distanceTo
      CAMERA_HOME_POSITION < CAMERA_POSITION_EPSILON ∧
      (homeSt.target.lerp Vec3.origin CAMERA_LERP_FACTOR).distanceTo Vec3.origin <
      CAMERA_POSITION_EPSILON := by
    constructor
    · rw [show homeSt.camPos = CAMERA_HOME_POSITION from rfl, Vec3.lerp_self,
        Vec3.distanceTo_self]
      norm_num [CAMERA_POSITION_EPSILON]
    · rw [show homeSt.target = Vec3.origin from rfl, Vec3.lerp_self,
        Vec3.distanceTo_self]
      norm_num [CAMERA_POSITION_EPSILON]
  refine ⟨?_, rfl, Option.some_ne_none earthSel⟩
  show (updateCameraState (some earthSel) [] homeSt).state = CameraState.FREE
  rw [updateCameraState_movingHome (some earthSel) [] homeSt rfl, if_pos hcond]

/-- C4 amended: during MOVING_TO_HOME the tick leaves the selection
untouched, transitions to FREE exactly when both the camera distance to home
and the target distance to the origin fall under the fixed position epsilon
after the lerp, and on that convergence snaps the camera to home, the target
to the origin and lifts the distance clamp. -/
theorem c4_amended (sel : Option SelectedBody) (reg : Registry) (s : CamSt)
    (hst : s.state = CameraState.MOVING_TO_HOME) :
    (cameraTick sel reg s).1 = sel ∧
    ((cameraTick sel reg s).2.state = CameraState.FREE ↔
      (s.camPos.lerp CAMERA_HOME_POSITION CAMERA_LERP_FACTOR).distanceTo
          CAMERA_HOME_POSITION < CAMERA_POSITION_EPSILON ∧
      (s.target.lerp Vec3.origin CAMERA_LERP_FACTOR).distanceTo Vec3.origin <
          CAMERA_POSITION_EPSILON) ∧
    ((s.camPos.lerp CAMERA_HOME_POSITION CAMERA_LERP_FACTOR).distanceTo
          CAMERA_HOME_POSITION < CAMERA_POSITION_EPSILON ∧
      (s.target.lerp Vec3.origin CAMERA_LERP_FACTOR).distanceTo Vec3.origin <
          CAMERA_POSITION_EPSILON →
      (cameraTick sel reg s).2.camPos = CAMERA_HOME_POSITION ∧
      (cameraTick sel reg s).2.target = Vec3.origin ∧
      (cameraTick sel reg s).2.maxDistance = none) := by
  unfold cameraTick
  rw [updateCameraState_movingHome sel reg s hst]
  by_cases hc : (s.camPos.lerp CAMERA_HOME_POSITION CAMERA_LERP_FACTOR).distanceTo
      CAMERA_HOME_POSITION < CAMERA_POSITION_EPSILON ∧
      (s.target.lerp Vec3.origin CAMERA_LERP_FACTOR).distanceTo Vec3.origin <
      CAMERA_POSITION_EPSILON
  · rw [if_pos hc]
    exact ⟨rfl, by simp [hc], fun _ => ⟨rfl, rfl, rfl⟩⟩
  · rw [if_neg hc]
    exact ⟨rfl, by simp [hst, hc], fun h => absurd h hc⟩

/-- C4 amended witness: the MOVING_TO_HOME characterisation instantiated on
the concrete converged home state with a still-set selection. -/
theorem c4_amended_witness :
    (cameraTick (some earthSel) earthReg homeSt).1 = some earthSel ∧
    ((cameraTick (some earthSel) earthReg homeSt).2.state = CameraState.FREE ↔
      (homeSt.camPos.lerp CAMERA_HOME_POSITION CAMERA_LERP_FACTOR).distanceTo
          CAMERA_HOME_POSITION < CAMERA_POSITION_EPSILON ∧
      (homeSt.target.lerp Vec3.origin CAMERA_LERP_FACTOR).distanceTo Vec3.origin <
          CAMERA_POSITION_EPSILON) ∧
    ((homeSt.camPos.lerp CAMERA_HOME_POSITION CAMERA_LERP_FACTOR).distanceTo
          CAMERA_HOME_POSITION < CAMERA_POSITION_EPSILON ∧
      (homeSt.target.lerp Vec3.origin CAMERA_LERP_FACTOR).distanceTo Vec3.origin <
          CAMERA_POSITION_EPSILON →
      (cameraTick (some earthSel) earthReg homeSt).2.camPos = CAMERA_HOME_POSITION ∧
      (cameraTick (some earthSel) earthReg homeSt).2.target = Vec3.origin ∧
      (cameraTick (some earthSel) earthReg homeSt).2.maxDistance = none) :=
  c4_amended (some earthSel) earthReg homeSt rfl

/-- C8 counterexample: in DETAIL_VIEW a radius-1 moon selection is clamped to
maximum distance 15 while a radius-1 default planet is clamped to maximum
distance 3: the moon factors are larger, not tighter, than the default
planet factors. -/
theorem c8_counterexample :
    (updateCameraState (some moonSel) [] detailSt).maxDistance = some 15 ∧
    (updateCameraState (some earthSel) earthReg detailSt).maxDistance = some 3 ∧
    ¬ (15 : ℝ) ≤ 3 := by
  refine ⟨?_, ?_, by norm_num⟩
  · rw [updateCameraState_detailView moonSel [] detailSt rfl ⟨8, 0, 1⟩
      (by simp [getPlanetPosition, moonSel])]
    simp [moonSel, detailMaxFactor]
  · rw [updateCameraState_detailView earthSel earthReg detailSt rfl ⟨8, 0, 0⟩
      (by simp [getPlanetPosition, earthSel, earthReg, lookupKey])]
    simp [earthSel, detailMaxFactor]

/-- C8 amended: in DETAIL_VIEW with a resolvable selection, manual control is
enabled, the controls target the resolved position, and the distance is
clamped to the body radius times the per-class MIN and MAX factors, which
are 1.5 and 10 for the star, 1.5 and 15 for moons, 1.2 and 5 for Jupiter and
1.2 and 3 for the default planet: the moon factors are larger than the
default planet factors. -/
theorem c8_amended (q : SelectedBody) (reg : Registry) (s : CamSt)
    (hst : s.state = CameraState.DETAIL_VIEW) (p : Vec3)
    (hp : getPlanetPosition (some q) reg = some p) :
    (updateCameraState (some q) reg s).ctrlEnabled = true ∧
    (updateCameraState (some q) reg s).ctrlTarget = p ∧
    (updateCameraState (some q) reg s).minDistance = q.radius * detailMinFactor q ∧
    (updateCameraState (some q) reg s).maxDistance =
      some (q.radius * detailMaxFactor q) := by
  rw [updateCameraState_detailView q reg s hst p hp]
  exact ⟨rfl, rfl, rfl, rfl⟩

/-- C8 amended witness: the DETAIL_VIEW clamp instantiated on the concrete
radius-1 moon selection. -/
theorem c8_amended_witness :
    (updateCameraState (some moonSel) [] detailSt).ctrlEnabled = true ∧
    (updateCameraState (some moonSel) [] detailSt).ctrlTarget = ⟨8, 0, 1⟩ ∧
    (updateCameraState (some moonSel) [] detailSt).minDistance =
      moonSel.radius * detailMinFactor moonSel ∧
    (updateCameraState (some moonSel) [] detailSt).maxDistance =
      some (moonSel.radius * detailMaxFactor moonSel) :=
  c8_amended moonSel [] detailSt rfl ⟨8, 0, 1⟩ (by simp [getPlanetPosition, moonSel])
